import Mathlib

/-!
Verification of the policy-gated decision loop of an autonomous trading agent.

Shallow embedding conventions:
- Python floats are modelled as exact rationals (`ℚ`); decimal literals map to
  the corresponding rationals.
- The persistent JSON document (`memory/agent_memory.json`) is modelled as a
  typed structure `Doc`; dictionary `get` with a default becomes a structure
  field access or an association-list lookup with a default.
- The file on disk is a `FileState`: missing, present but unparsable, or
  present and parsed.  `MemoryStore.load` / `save` thread this state
  explicitly; raising Python exceptions is modelled by `Except`.
- External collaborators (wallet RPC, browser, market data, sandbox, the
  stdlib `float` parser) are oracle functions collected in `Env`.
-/

-- ── error taxonomy ──────────────────────────────────────────────────────────

/-- Reasons for `PolicyViolation` raised by `core/policy_engine.py`.
The numeric interpolations of the Python messages are abstracted away;
each constructor corresponds to one `raise PolicyViolation(...)` site. -/
inductive Violation where
  | amountNotPositive
  | exceedsMaxSolPerTx
  | exceedsDailySpendCap
  | badDestination
  | swapSameToken
  | swapAmountNotPositive
  | exceedsMaxSwapPerTx
  | exceedsDailySwapCap
  | mainnetSafety
  | domainNotAllowed
  deriving DecidableEq, Repr

/-- Exceptions that can cross the boundaries modelled here: policy
violations, `json.JSONDecodeError` from `json.load`, the `TypeError` raised
by calling `check_swap` without its required `network` argument
(src/core/agent.py line 591), `ValueError` from explicit raises or numeric
parses, and arbitrary exceptions from external collaborators. -/
inductive AgentErr where
  | policy (v : Violation)
  | jsonDecode
  | typeErrorMissingNetworkArg
  | valueError (msg : String)
  | external (msg : String)
  deriving DecidableEq, Repr

/-- Message rendering used by the ACT exception handler
(`result = f"action blocked/failed: ..."`); the exact Python str of each
exception is abstracted to a fixed text per exception kind. -/
def errMessage : AgentErr → String
  | .policy .amountNotPositive => "amount_sol must be positive"
  | .policy .exceedsMaxSolPerTx => "amount_sol exceeds MAX_SOL_PER_TX"
  | .policy .exceedsDailySpendCap => "Projected daily spend exceeds cap"
  | .policy .badDestination => "destination does not look like a valid Solana address"
  | .policy .swapSameToken => "swap from_token and to_token must differ"
  | .policy .swapAmountNotPositive => "swap amount_usd must be positive"
  | .policy .exceedsMaxSwapPerTx => "swap notional exceeds MAX_SWAP_USD_PER_TX"
  | .policy .exceedsDailySwapCap => "Projected daily swap volume exceeds cap"
  | .policy .mainnetSafety => "Mainnet safety: swap would leave SOL balance below minimum"
  | .policy .domainNotAllowed => "Domain is not in the allowed scrape list"
  | .jsonDecode => "Expecting value: line 1 column 1"
  | .typeErrorMissingNetworkArg => "check_swap missing 1 required positional argument: network"
  | .valueError m => m
  | .external m => m

-- ── network detection (src/core/network_config.py) ──────────────────────────

/-- Network kinds from `core/network_config.py`. -/
inductive NetworkType where
  | mainnet
  | devnet
  deriving DecidableEq, Repr

-- ── configuration (src/core/config.py) ──────────────────────────────────────

/-- `PolicyConfig` dataclass defaults from `core/config.py`. -/
structure PolicyConfig where
  confidenceThreshold : ℚ := 3/5
  maxSolPerTx : ℚ := 1/10
  dailySpendCapSol : ℚ := 1/2
  maxLocDelta : Int := 200
  maxSwapUsdPerTx : ℚ := 50
  dailySwapCapUsd : ℚ := 200
  deriving DecidableEq, Repr

/-- `SolanaConfig` dataclass (fields used by the policy engine). -/
structure SolanaConfig where
  rpcUrl : String := "https://api.devnet.solana.com"
  mainnetMinBalanceSol : ℚ := 1/10
  deriving DecidableEq, Repr

/-- `MemoryConfig` dataclass defaults from `core/config.py`.  The caps are
Python ints; a non-positive cap disables trimming for that list, which the
embedding represents by cap `0` (Python `limit <= 0` → `continue`). -/
structure MemoryConfig where
  maxReflections : Nat := 50
  maxTrades : Nat := 100
  maxSwapHistory : Nat := 50
  compressObservations : Bool := true
  deriving DecidableEq, Repr

/-- `ALLOWED_SCRAPE_DOMAINS` from `core/config.py`: the shipped constant is
the empty frozenset (the comment says the allowlist was removed, but
`check_browser_url` still consults it). -/
def ALLOWED_SCRAPE_DOMAINS : List String := []

/-- `AppConfig` (fields the core uses).  `load_config()` never overrides
`allowed_domains`, so it is always the empty `ALLOWED_SCRAPE_DOMAINS`. -/
structure AppConfig where
  policy : PolicyConfig := {}
  solana : SolanaConfig := {}
  memory : MemoryConfig := {}
  allowedDomains : List String := ALLOWED_SCRAPE_DOMAINS
  deriving DecidableEq, Repr

/-- The shipped default configuration (every field at its dataclass default,
domains empty). -/
def defaultAppConfig : AppConfig := {}

-- ── persistent document (src/core/memory.py `_DEFAULT_STATE`) ───────────────

/-- One entry of the `reflections` list. -/
structure Reflection where
  date : String := ""
  text : String := ""
  deriving DecidableEq, Repr

/-- Plan parameters dictionary (`params` of a plan).  Absent keys are `none`;
access sites use `getD` with the Python `get` default. -/
structure Params where
  fromToken : Option String := none
  toToken : Option String := none
  amountSol : Option ℚ := none
  slippageBps : Option Int := none
  code : Option String := none
  commitMessage : Option String := none
  interval : Option String := none
  limit : Option Int := none
  deriving DecidableEq, Repr

/-- One entry of the `trades` list, as appended by
`MemoryStore.append_trade`. -/
structure Trade where
  date : String := ""
  actionType : String := "unknown"
  target : String := ""
  params : Params := {}
  confidence : ℚ := 0
  reason : String := ""
  result : String := ""
  deriving DecidableEq, Repr

/-- One entry of `trade_summaries`, produced by
`MemoryStore._summarize_trades`: period range, per-action counts
(insertion-ordered association list, like a Python dict) and success rate. -/
structure TradeSummary where
  period : String
  total : Nat
  actions : List (String × Nat)
  successRate : ℚ
  deriving DecidableEq, Repr

/-- One tracked position (`positions[token]`). -/
structure Position where
  amount : ℚ := 0
  costBasisUsd : ℚ := 0
  lastUpdated : String := ""
  deriving DecidableEq, Repr

/-- One entry of `swap_history`, as appended by the ACT swap branch. -/
structure SwapRecord where
  date : String := ""
  fromToken : String := ""
  toToken : String := ""
  amountSol : ℚ := 0
  amountUsd : ℚ := 0
  slippageBps : Int := 0
  signature : String := ""
  mock : Bool := false
  deriving DecidableEq, Repr

/-- The `benchmark` sub-document. -/
structure Benchmark where
  startDate : String := ""
  startPortfolioUsd : ℚ := 0
  startPrices : List (String × ℚ) := []
  deriving DecidableEq, Repr

/-- The persistent JSON document, mirroring `_DEFAULT_STATE` in
`core/memory.py`. -/
structure Doc where
  dailySpendSol : ℚ := 0
  dailySpendDate : String := ""
  dailySwapUsd : ℚ := 0
  dailySwapDate : String := ""
  reflections : List Reflection := []
  trades : List Trade := []
  tradeSummaries : List TradeSummary := []
  benchmark : Benchmark := {}
  positions : List (String × Position) := []
  swapHistory : List SwapRecord := []
  lastObservations : String := ""
  lastObservationsPrices : List String := []
  deriving DecidableEq, Repr

/-- `_DEFAULT_STATE`: the structurally-complete default document. -/
def defaultState : Doc := {}

/-- The on-disk condition of the memory file: absent, present but not valid
JSON, or present with a parsed document. -/
inductive FileState where
  | missing
  | unparsable
  | parsed (d : Doc)
  deriving DecidableEq, Repr

-- ── string helpers modelling Python stdlib behaviour ────────────────────────

/-- Python `str.upper()` for the ASCII strings handled here. -/
def pyToUpper (s : String) : String := String.mk (s.toList.map Char.toUpper)

/-- Python `str.lower()` for the ASCII strings handled here. -/
def pyToLower (s : String) : String := String.mk (s.toList.map Char.toLower)

/-- Character-list test that `pat` starts `l`. -/
def isPrefixList : List Char → List Char → Bool
  | [], _ => true
  | _ :: _, [] => false
  | a :: as, b :: bs => a = b && isPrefixList as bs

/-- Occurrence search over suffixes. -/
def containsSubAux (pat : List Char) : List Char → Bool
  | [] => isPrefixList pat []
  | c :: rest => isPrefixList pat (c :: rest) || containsSubAux pat rest

/-- Python substring membership `pat in s`: some suffix of `s` starts with
`pat` (true for the empty pattern, as in Python). -/
def containsSub (s pat : String) : Bool := containsSubAux pat.toList s.toList

/-- Python `str.strip(chars)`: remove leading and trailing characters that
belong to `chars`. -/
def pyStrip (s : String) (chars : List Char) : String :=
  String.mk (((s.toList.dropWhile (· ∈ chars)).reverse.dropWhile (· ∈ chars)).reverse)

/-- Python `str.split()` with no argument: split on whitespace runs,
discarding empty pieces. -/
def pySplitWs (s : String) : List String :=
  (s.split Char.isWhitespace).filter (· ≠ "")

/-- Python `lst[-n:]` for an `int` index `n` (used by `recent_trades`):
for positive `n` the last `n` elements, for `-k` it drops the first `k`. -/
def pyTailSlice {α : Type} (l : List α) (n : Int) : List α :=
  if 0 < n then l.drop (l.length - n.toNat) else l.drop (-n).toNat

/-- Python `int(s)` on a string: parses an optionally signed decimal integer
(surrounding whitespace allowed), raising `ValueError` otherwise. -/
def pyInt (s : String) : Except String Int :=
  match s.trim.toInt? with
  | some n => .ok n
  | none => .error "invalid literal for int"

-- ── MemoryStore (src/core/memory.py) ────────────────────────────────────────

/-- Increment the count for `a` in an insertion-ordered association list,
mirroring `action_counts[action] = action_counts.get(action, 0) + 1` on a
Python dict. -/
def bumpCount : List (String × Nat) → String → List (String × Nat)
  | [], a => [(a, 1)]
  | (k, v) :: rest, a =>
      if k = a then (k, v + 1) :: rest else (k, v) :: bumpCount rest a

/-- `MemoryStore._summarize_trades`: statistical summary of pruned trades
(period range from first/last date, per-action counts, success rate where a
result containing "failed" or "blocked" counts as failure). -/
def summarize_trades (trades : List Trade) : TradeSummary :=
  let step := fun (acc : List (String × Nat) × Nat × Nat) (t : Trade) =>
    let counts := bumpCount acc.1 t.actionType
    let r := pyToLower t.result
    if containsSub r "failed" || containsSub r "blocked" then
      (counts, acc.2.1, acc.2.2 + 1)
    else
      (counts, acc.2.1 + 1, acc.2.2)
  let folded := trades.foldl step ([], 0, 0)
  let period :=
    match trades.head?, trades.getLast? with
    | some first, some last => first.date ++ " to " ++ last.date
    | _, _ => "unknown"
  let total := trades.length
  { period := period
    total := total
    actions := folded.1
    successRate := if total = 0 then 0 else (folded.2.1 : ℚ) / (total : ℚ) }

/-- The `reflections` iteration of the rotation loop in
`MemoryStore._summarize_and_rotate`: trim to the last `max_reflections`
entries when over the cap (`arr[-limit:]`).  A cap of `0` models Python
`limit <= 0`, which skips the list. -/
def rotate_reflections (mcfg : MemoryConfig) (state : Doc) : Doc :=
  if mcfg.maxReflections ≠ 0 ∧ state.reflections.length > mcfg.maxReflections then
    { state with reflections :=
        state.reflections.drop (state.reflections.length - mcfg.maxReflections) }
  else state

/-- The `trades` iteration of the rotation loop: when over the cap, keep
the last `max_trades` entries and append one summary of the pruned prefix
(`arr[:-limit]`, necessarily non-empty here) to `trade_summaries`. -/
def rotate_trades (mcfg : MemoryConfig) (state : Doc) : Doc :=
  if mcfg.maxTrades ≠ 0 ∧ state.trades.length > mcfg.maxTrades then
    { state with
        trades := state.trades.drop (state.trades.length - mcfg.maxTrades)
        tradeSummaries := state.tradeSummaries
          ++ [summarize_trades (state.trades.take (state.trades.length - mcfg.maxTrades))] }
  else state

/-- The `swap_history` iteration of the rotation loop (no summarization). -/
def rotate_swap_history (mcfg : MemoryConfig) (state : Doc) : Doc :=
  if mcfg.maxSwapHistory ≠ 0 ∧ state.swapHistory.length > mcfg.maxSwapHistory then
    { state with swapHistory :=
        state.swapHistory.drop (state.swapHistory.length - mcfg.maxSwapHistory) }
  else state

/-- `MemoryStore._summarize_and_rotate`: the loop over the limits dict runs
over `reflections`, `trades`, `swap_history` in that (insertion) order. -/
def summarize_and_rotate (mcfg : MemoryConfig) (state : Doc) : Doc :=
  rotate_swap_history mcfg (rotate_trades mcfg (rotate_reflections mcfg state))

/-- `MemoryStore.save`: apply rotation, then atomically write the rotated
document.  Because `_summarize_and_rotate` mutates the caller's dict in
place, the document visible to the caller afterwards is the rotated one;
the function returns it together with the new file state. -/
def saveDoc (mcfg : MemoryConfig) (state : Doc) : Doc × FileState :=
  let r := summarize_and_rotate mcfg state
  (r, .parsed r)

/-- `MemoryStore.load`: missing file yields a fresh default document (no
write); an unparsable file propagates the JSON parse error (there is no
try/except around `json.load`); a parsed document has both daily counters
reset when their stored date differs from `today`, persisting (and hence
rotating) the document when a reset happened. -/
def loadMem (mcfg : MemoryConfig) (fs : FileState) (today : String) :
    Except AgentErr (Doc × FileState) :=
  match fs with
  | .missing => .ok (defaultState, .missing)
  | .unparsable => .error .jsonDecode
  | .parsed st =>
    let p1 :=
      if st.dailySpendDate ≠ today then
        ({ st with dailySpendSol := 0, dailySpendDate := today }, true)
      else (st, false)
    let p2 :=
      if p1.1.dailySwapDate ≠ today then
        ({ p1.1 with dailySwapUsd := 0, dailySwapDate := today }, true)
      else p1
    if p2.2 then
      let r := (saveDoc mcfg p2.1).1
      .ok (r, .parsed r)
    else
      .ok (p2.1, fs)

/-- `MemoryStore.add_spend`: reload, increment `daily_spend_sol`, stamp the
date, save.  Errors carry the file state at the raise point. -/
def add_spend (mcfg : MemoryConfig) (fs : FileState) (today : String)
    (amountSol : ℚ) : Except (AgentErr × FileState) FileState :=
  match loadMem mcfg fs today with
  | .error e => .error (e, fs)
  | .ok (st, _) =>
    let st2 := { st with dailySpendSol := st.dailySpendSol + amountSol,
                         dailySpendDate := today }
    .ok (saveDoc mcfg st2).2

/-- `MemoryStore.recent_trades`: reload and return the last `n` trades,
newest first. -/
def recent_trades (mcfg : MemoryConfig) (fs : FileState) (today : String)
    (n : Int) : Except (AgentErr × FileState) (List Trade × FileState) :=
  match loadMem mcfg fs today with
  | .error e => .error (e, fs)
  | .ok (st, fs1) => .ok ((pyTailSlice st.trades n).reverse, fs1)

-- ── PolicyEngine (src/core/policy_engine.py) ────────────────────────────────

/-- `PolicyEngine.check_wallet_send`: amount must be positive and at most
`max_sol_per_tx`; the memory is re-read from disk and the projected daily
spend must not strictly exceed `daily_spend_cap_sol`; the destination must
be non-empty and at least 32 characters.  Errors carry the file state at
the raise point (the reload may itself have persisted a daily reset). -/
def check_wallet_send (cfg : AppConfig) (fs : FileState) (today : String)
    (amountSol : ℚ) (destination : String) :
    Except (AgentErr × FileState) (Unit × FileState) :=
  if amountSol ≤ 0 then .error (.policy .amountNotPositive, fs)
  else if cfg.policy.maxSolPerTx < amountSol then
    .error (.policy .exceedsMaxSolPerTx, fs)
  else
    match loadMem cfg.memory fs today with
    | .error e => .error (e, fs)
    | .ok (state, fs1) =>
      let projected := state.dailySpendSol + amountSol
      if cfg.policy.dailySpendCapSol < projected then
        .error (.policy .exceedsDailySpendCap, fs1)
      else if destination = "" ∨ destination.length < 32 then
        .error (.policy .badDestination, fs1)
      else .ok ((), fs1)

/-- Default-position lookup `positions.get("SOL", {}).get("amount", 0.0)`:
association-list lookup falling back to the zero position. -/
def lookupPos (ps : List (String × Position)) (k : String) : Position :=
  (List.lookup k ps).getD {}

/-- `PolicyEngine.check_swap` exactly as shipped: tokens must differ, the
USD notional must be positive and within per-transaction and daily caps
(memory re-read for the daily counter), and on mainnet with `from_token`
"SOL" the tracked SOL position minus `amount_usd` — the USD notional, which
the code comments call "SOL notional" — must not fall below the configured
minimum balance. -/
def check_swap (cfg : AppConfig) (fs : FileState) (today : String)
    (fromToken toToken : String) (amountUsd : ℚ) (network : NetworkType) :
    Except (AgentErr × FileState) (Unit × FileState) :=
  if fromToken = toToken then .error (.policy .swapSameToken, fs)
  else if amountUsd ≤ 0 then .error (.policy .swapAmountNotPositive, fs)
  else if cfg.policy.maxSwapUsdPerTx < amountUsd then
    .error (.policy .exceedsMaxSwapPerTx, fs)
  else
    match loadMem cfg.memory fs today with
    | .error e => .error (e, fs)
    | .ok (state, fs1) =>
      let projected := state.dailySwapUsd + amountUsd
      if cfg.policy.dailySwapCapUsd < projected then
        .error (.policy .exceedsDailySwapCap, fs1)
      else if network = NetworkType.mainnet ∧ pyToUpper fromToken = "SOL" then
        let currentSol := (lookupPos state.positions "SOL").amount
        if currentSol - amountUsd < cfg.solana.mainnetMinBalanceSol then
          .error (.policy .mainnetSafety, fs1)
        else .ok ((), fs1)
      else .ok ((), fs1)

/-- Model of `urllib.parse.urlparse(url).netloc`: the authority component
after the first "//", cut at the first of "/", "?" or "#"; empty when the
URL has no "//". -/
def netlocOf (url : String) : String :=
  match url.splitOn "//" with
  | _ :: authority :: _ =>
      String.mk (authority.toList.takeWhile
        (fun c => c ≠ '/' ∧ c ≠ '?' ∧ c ≠ '#'))
  | _ => ""

/-- `PolicyEngine.check_browser_url`: lowercase the netloc, strip a port,
and require membership in the configured allowed-domain set. -/
def check_browser_url (cfg : AppConfig) (url : String) : Except AgentErr Unit :=
  let parsedNetloc := pyToLower (netlocOf url)
  let domain :=
    if parsedNetloc.contains ':' then (parsedNetloc.splitOn ":").headD ""
    else parsedNetloc
  if domain ∈ cfg.allowedDomains then .ok ()
  else .error (.policy .domainNotAllowed)

-- ── PositionTool (src/tools/position_tool.py) ───────────────────────────────

/-- Python dict assignment `positions[key] = value`: replace in place when
present, append otherwise. -/
def setPos : List (String × Position) → String → Position → List (String × Position)
  | [], k, v => [(k, v)]
  | (k0, v0) :: rest, k, v =>
      if k0 = k then (k, v) :: rest else (k0, v0) :: setPos rest k v

/-- The in-place mutation step of `PositionTool.update_position` on a loaded
document: buys add `usd_value` to the cost basis; sells with a remaining
positive amount and positive cost basis scale the cost basis by
`1 - min(1, |delta| / (amount + |delta|))` where `amount` is the
post-delta amount; a non-positive resulting amount clamps both fields to
zero; the entry is restamped with today's date. -/
def updatePositionDoc (state : Doc) (token : String)
    (amountDelta usdValue : ℚ) (today : String) : Doc :=
  let key := pyToUpper token
  let pos := lookupPos state.positions key
  let amount := pos.amount + amountDelta
  let costBasis0 := pos.costBasisUsd
  let costBasis1 :=
    if amountDelta > 0 ∧ usdValue > 0 then costBasis0 + usdValue
    else if amountDelta < 0 ∧ amount > 0 ∧ costBasis0 > 0 then
      costBasis0 * (1 - min 1 (|amountDelta| / (amount + |amountDelta|)))
    else costBasis0
  let final :=
    if amount ≤ 0 then ({ amount := 0, costBasisUsd := 0, lastUpdated := today } : Position)
    else { amount := amount, costBasisUsd := costBasis1, lastUpdated := today }
  { state with positions := setPos state.positions key final }

/-- `PositionTool.update_position`: reload the document, apply the position
mutation, save (which rotates the capped lists). -/
def update_position (mcfg : MemoryConfig) (fs : FileState) (today : String)
    (token : String) (amountDelta usdValue : ℚ) :
    Except (AgentErr × FileState) (Unit × FileState) :=
  match loadMem mcfg fs today with
  | .error e => .error (e, fs)
  | .ok (state, _) =>
    .ok ((), (saveDoc mcfg (updatePositionDoc state token amountDelta usdValue today)).2)

-- ── agent state and plan (src/core/agent.py) ────────────────────────────────

/-- The structured plan parsed from the model's JSON.  Absent keys are
`none`; access sites use the same defaults as the Python `get` calls. -/
structure Plan where
  actionType : Option String := none
  target : Option String := none
  params : Option Params := none
  confidence : Option ℚ := none
  reason : Option String := none
  deriving DecidableEq, Repr

/-- The per-invocation `AgentState` TypedDict. -/
structure AgentState where
  observations : String := ""
  plan : Option Plan := none
  actionResult : String := ""
  reflection : String := ""
  done : Bool := false
  step : Nat := 0
  lastActionType : Option String := none
  deriving DecidableEq, Repr

/-- Oracles for the external collaborators the ACT node calls: wallet
balance and transfer, browser scrape, the klines+TA+summarize composite,
the sandbox apply pipeline, the swap execution, and the stdlib `float`
string parser.  Each returns `Except` because every call can raise. -/
structure Env where
  balanceToken : String → Except String ℚ
  send : String → ℚ → Except String String
  scrape : String → Except String String
  analyze : String → String → Int → Except String String
  sandboxApply : String → String → String → Except String String
  swapExec : String → String → Int → Int → Except String String
  pyFloat : String → Except String ℚ

-- ── REASON plan parsing ─────────────────────────────────────────────────────

/-- The regex fallback `re.search(r"\{.*\}", raw, re.DOTALL)`: greedy, so it
spans from the first opening brace to the last closing brace, provided the
closing brace comes later. -/
def extract_json_substring (raw : String) : Option String :=
  let cs := raw.toList
  match cs.findIdx? (fun c => c = '\x7b'), (cs.reverse.findIdx? (fun c => c = '\x7d')) with
  | some i, some jr =>
    let j := cs.length - 1 - jr
    if i ≤ j then some (String.mk ((cs.drop i).take (j + 1 - i))) else none
  | _, _ => none

/-- The plan-producing logic of `reason_node`: invoke the model, try to
parse the raw response as JSON, fall back to the brace-delimited substring,
and on any failure (model call or either parse) yield `none` instead of
raising.  `parse` is the `json.loads`-plus-plan-interpretation oracle
(`none` models a parse exception). -/
def reason_plan (parse : String → Option Plan)
    (llmResponse : Except String String) : Option Plan :=
  match llmResponse with
  | .error _ => none
  | .ok raw =>
    match parse raw with
    | some p => some p
    | none =>
      match extract_json_substring raw with
      | some sub => parse sub
      | none => none

-- ── ACT helpers ─────────────────────────────────────────────────────────────

/-- The SOL-price scan of the swap branch (and of `reason_node`): walk the
compact price lines, split each on whitespace, and return the `float` of
the price of the first line whose bracket-stripped symbol is "SOLUSDT";
a malformed number raises `ValueError`. -/
def solPriceFromLines (pyFloat : String → Except String ℚ) :
    List String → Except AgentErr (Option ℚ)
  | [] => .ok none
  | line :: rest =>
    match pySplitWs line.trim with
    | [symbolRaw, priceStr] =>
      if pyToUpper (pyStrip symbolRaw ['[', ']']) = "SOLUSDT" then
        match pyFloat priceStr with
        | .ok q => .ok (some q)
        | .error m => .error (.valueError m)
      else solPriceFromLines pyFloat rest
    | _ => solPriceFromLines pyFloat rest

/-- `history_tool._format_trade`: one formatted past-action block (the
interpolated params repr is abstracted to a fixed token). -/
def format_trade (idx : Nat) (t : Trade) : String :=
  let base :=
    "--- past action #" ++ toString idx ++ " (" ++ t.date ++ ") ---\n" ++
    "  action   : " ++ t.actionType ++ "\n" ++
    "  target   : " ++ t.target ++ "\n"
  let paramsLine :=
    if t.params = ({} : Params) then "" else "  params   : params\n"
  base ++ paramsLine ++
    "  confidence: " ++ toString t.confidence ++ "\n" ++
    "  why      : " ++ t.reason ++ "\n" ++
    "  result   : " ++ t.result

/-- `HistoryTool.recent`: format the last `n` trades newest first, or an
explanatory stub when there are none. -/
def history_recent (mcfg : MemoryConfig) (fs : FileState) (today : String)
    (n : Int) : Except (AgentErr × FileState) (String × FileState) :=
  match recent_trades mcfg fs today n with
  | .error e => .error e
  | .ok (trades, fs1) =>
    if trades = [] then .ok ("[history] no past actions recorded yet", fs1)
    else
      .ok (String.intercalate "\n\n"
        ((trades.enumFrom 1).map (fun p => format_trade p.1 p.2)), fs1)

-- ── ACT (src/core/agent.py `act_node`) ──────────────────────────────────────

/-- Cap on REASON→ACT cycles per run (`_MAX_REASON_ACT_STEPS`). -/
def _MAX_REASON_ACT_STEPS : Nat := 2

/-- `act_node`: a null plan and a below-threshold confidence return early
(without touching `step` or `last_action_type`); otherwise the plan is
dispatched inside a try block whose handler converts any exception into an
"action blocked/failed: ..." result, and the function finally bumps `step`
and records the action type.  In the swap branch the shipped code calls
`policy.check_swap(from_token, to_token, amount_usd)`, omitting the
required positional `network` argument, so under Python call semantics the
call raises `TypeError` before the check body runs; the code after that
call is unreachable and is therefore not modelled. -/
def act_node (cfg : AppConfig) (env : Env) (dryRun : Bool) (today : String)
    (s : AgentState) (fs : FileState) : AgentState × FileState :=
  match s.plan with
  | none => ({ s with actionResult := "no valid plan produced" }, fs)
  | some plan =>
    let confidence := plan.confidence.getD 0
    let actionType := plan.actionType.getD "noop"
    if confidence < cfg.policy.confidenceThreshold then
      ({ s with actionResult :=
          "confidence " ++ toString confidence ++ " below threshold — skipped" }, fs)
    else
      let tried : Except (AgentErr × FileState) (String × FileState) :=
        if actionType = "wallet_send" then
          let dest := plan.target.getD ""
          let amount := (plan.params.getD {}).amountSol.getD 0
          match check_wallet_send cfg fs today amount dest with
          | .error e => .error e
          | .ok (_, fs1) =>
            if dryRun then
              .ok ("DRY-RUN: would send " ++ toString amount ++ " SOL → " ++ dest, fs1)
            else
              match env.send dest amount with
              | .error m => .error (.external m, fs1)
              | .ok sig =>
                match add_spend cfg.memory fs1 today amount with
                | .error e => .error e
                | .ok fs2 =>
                  .ok ("sent " ++ toString amount ++ " SOL → " ++ dest ++
                       ", sig=" ++ sig, fs2)
        else if actionType = "scrape" then
          let url := plan.target.getD ""
          match check_browser_url cfg url with
          | .error e => .error (e, fs)
          | .ok _ =>
            match env.scrape url with
            | .error m => .error (.external m, fs)
            | .ok text => .ok ("[scraped " ++ url ++ "]\n" ++ text, fs)
        else if actionType = "analyze" then
          let symbol := pyToUpper (plan.target.getD "BTCUSDT")
          let interval := (plan.params.getD {}).interval.getD "1h"
          let limit := (plan.params.getD {}).limit.getD 100
          match env.analyze symbol interval limit with
          | .error m => .error (.external m, fs)
          | .ok summary => .ok (summary, fs)
        else if actionType = "review_history" then
          let targetStr := plan.target.getD "5"
          let tstr := if targetStr = "" then "5" else targetStr
          match pyInt tstr with
          | .error m => .error (.valueError m, fs)
          | .ok n =>
            match history_recent cfg.memory fs today n with
            | .error e => .error e
            | .ok (text, fs1) => .ok (text, fs1)
        else if actionType = "extend_code" then
          let filePath := plan.target.getD ""
          let newCode := (plan.params.getD {}).code.getD ""
          let msg := (plan.params.getD {}).commitMessage.getD "agent: extend code"
          match env.sandboxApply filePath newCode msg with
          | .error m => .error (.external m, fs)
          | .ok res => .ok (res, fs)
        else if actionType = "swap" then
          let params := plan.params.getD {}
          let fromToken := pyToUpper (params.fromToken.getD "SOL")
          let amountSol := params.amountSol.getD 0
          if amountSol ≤ 0 then
            .error (.valueError "amount_sol must be positive for swap", fs)
          else
            match env.balanceToken fromToken with
            | .error m => .error (.external m, fs)
            | .ok available =>
              if available < amountSol then
                .error (.valueError "Insufficient balance for swap", fs)
              else
                match loadMem cfg.memory fs today with
                | .error e => .error (e, fs)
                | .ok (memState, fs1) =>
                  match solPriceFromLines env.pyFloat memState.lastObservationsPrices with
                  | .error e => .error (e, fs1)
                  | .ok _solPrice =>
                    .error (.typeErrorMissingNetworkArg, fs1)
        else .ok ("noop", fs)
      match tried with
      | .ok (result, fs2) =>
        ({ s with actionResult := result, step := s.step + 1,
                  lastActionType := some actionType }, fs2)
      | .error (e, fs2) =>
        ({ s with actionResult := "action blocked/failed: " ++ errMessage e,
                  step := s.step + 1, lastActionType := some actionType }, fs2)

-- ── routing after ACT and the bounded loop ──────────────────────────────────

/-- Targets of the conditional edge out of ACT. -/
inductive RouteTarget where
  | reason
  | reflect
  deriving DecidableEq, Repr

/-- `_route_after_act`: REFLECT once `step` has reached the cap, otherwise
loop back to REASON after a free research action, else REFLECT. -/
def route_after_act (s : AgentState) : RouteTarget :=
  if _MAX_REASON_ACT_STEPS ≤ s.step then .reflect
  else if pyToLower (s.lastActionType.getD "") ∈
      ["analyze", "scrape", "review_history"] then .reason
  else .reflect

/-- A point in the REASON→ACT loop: how many times REASON has been entered,
the run state, and the memory file. -/
structure RunPoint where
  i : Nat
  s : AgentState
  fs : FileState

/-- Outcome of running the loop for a while: still bouncing between REASON
and ACT, or routed to REFLECT (which then terminates the run). -/
inductive RunStatus where
  | looping (p : RunPoint)
  | reflected (p : RunPoint)

/-- Whether the loop is still going. -/
def RunStatus.isLooping : RunStatus → Bool
  | .looping _ => true
  | .reflected _ => false

/-- One REASON→ACT iteration followed by the conditional routing.  REASON's
net effect on the run state is to store the plan produced for this entry
(`plans p.i`); its balance/benchmark bookkeeping touches neither `step`,
`last_action_type` nor the plan and is not modelled. -/
def loopOnce (cfg : AppConfig) (env : Env) (dryRun : Bool) (today : String)
    (plans : Nat → Option Plan) (p : RunPoint) : RunStatus :=
  let s1 := { p.s with plan := plans p.i }
  let r := act_node cfg env dryRun today s1 p.fs
  match route_after_act r.1 with
  | .reason => .looping ⟨p.i + 1, r.1, r.2⟩
  | .reflect => .reflected ⟨p.i + 1, r.1, r.2⟩

/-- Run up to `n` REASON→ACT iterations from `p`, stopping early if the
routing ever chooses REFLECT. -/
def runLoop (cfg : AppConfig) (env : Env) (dryRun : Bool) (today : String)
    (plans : Nat → Option Plan) : Nat → RunPoint → RunStatus
  | 0, p => .looping p
  | n + 1, p =>
    match loopOnce cfg env dryRun today plans p with
    | .looping p2 => runLoop cfg env dryRun today plans n p2
    | .reflected p2 => .reflected p2

-- ── helper lemmas ───────────────────────────────────────────────────────────

/-- Reloading a document whose daily-counter dates are already today is a
pure read: no reset, no write. -/
theorem loadMem_today (mcfg : MemoryConfig) (d : Doc) (today : String)
    (h1 : d.dailySpendDate = today) (h2 : d.dailySwapDate = today) :
    loadMem mcfg (.parsed d) today = .ok (d, .parsed d) := by
  simp [loadMem, h1, h2]

/-- Rotation touches only the three capped lists and the summaries, never
the positions map. -/
theorem sar_positions (mcfg : MemoryConfig) (d : Doc) :
    (summarize_and_rotate mcfg d).positions = d.positions := by
  unfold summarize_and_rotate rotate_swap_history rotate_trades rotate_reflections
  split <;> split <;> split <;> rfl

/-- Looking up the key just written by `setPos` yields the written value. -/
theorem lookup_setPos_self (ps : List (String × Position)) (k : String)
    (v : Position) : List.lookup k (setPos ps k v) = some v := by
  induction ps with
  | nil => simp [setPos, List.lookup]
  | cons hd tl ih =>
    obtain ⟨k0, v0⟩ := hd
    by_cases hk : k0 = k
    · subst hk
      simp [setPos, List.lookup]
    · simp only [setPos, if_neg hk, List.lookup]
      rw [show (k == k0) = false from beq_eq_false_iff_ne.mpr (fun h => hk h.symm)]
      exact ih

-- ── C4 ──────────────────────────────────────────────────────────────────────

/-- C4 counterexample: on a present-but-unparsable memory file, `load()`
propagates the JSON parse error instead of yielding the default document,
refuting the second half of the claim at this concrete input. -/
theorem load_unparsable_is_not_default :
    loadMem defaultAppConfig.memory FileState.unparsable "2026-01-01"
      = .error .jsonDecode ∧
    loadMem defaultAppConfig.memory FileState.unparsable "2026-01-01"
      ≠ .ok (defaultState, FileState.unparsable) := by
  refine ⟨rfl, ?_⟩
  intro h
  exact Except.noConfusion h

/-- C4 (amended): `MemoryStore.load` returns the structurally-complete
default document when the file is missing, but when the file is present
and unparsable it raises the JSON decode error rather than self-healing. -/
theorem load_missing_default_unparsable_raises (mcfg : MemoryConfig)
    (today : String) :
    loadMem mcfg .missing today = .ok (defaultState, .missing) ∧
    loadMem mcfg .unparsable today = .error .jsonDecode :=
  ⟨rfl, rfl⟩

-- ── C2 ──────────────────────────────────────────────────────────────────────

/-- Tracked SOL position of 0.5 used by the mainnet-reserve scenario. -/
def c2Pos : Position := { amount := 1/2 }

/-- Memory document for the mainnet-reserve scenario: tracked SOL position
0.5, daily counters current. -/
def c2State : Doc := {
  dailySpendDate := "2026-01-01"
  dailySwapDate := "2026-01-01"
  positions := [("SOL", c2Pos)] }

/-- C2: with tracked SOL 0.5 and minimum reserve 0.1, the shipped mainnet
check subtracts the USD notional from the SOL position.  For a native swap
amount of 0.35 the outcome therefore depends on the SOL price: at 100
USD/SOL the caller passes `amount_usd = 35` and the check raises the
mainnet-safety violation even though 0.5 − 0.35 = 0.15 ≥ 0.1, while at 1
USD/SOL (`amount_usd = 0.35`) the same native amount passes — contradicting
the claim that the check uses the native amount independent of price. -/
theorem check_swap_mainnet_uses_usd_notional :
    check_swap defaultAppConfig (.parsed c2State) "2026-01-01"
        "SOL" "USDC" 35 .mainnet
      = .error (.policy .mainnetSafety, .parsed c2State) ∧
    check_swap defaultAppConfig (.parsed c2State) "2026-01-01"
        "SOL" "USDC" (35/100) .mainnet
      = .ok ((), .parsed c2State) := by
  have hs : ("SOL" : String) ≠ "USDC" := by decide
  have hu : pyToUpper "SOL" = "SOL" := by rfl
  constructor <;>
    norm_num [check_swap, c2State, c2Pos, loadMem, lookupPos, List.lookup,
      defaultAppConfig, hs, hu]

-- ── C7 ──────────────────────────────────────────────────────────────────────

/-- C7: `check_wallet_send` raises a `PolicyViolation` exactly when the
amount is non-positive, or strictly exceeds the per-transaction cap, or
the freshly reloaded daily spend plus the amount strictly exceeds the
daily cap, or the destination is empty or shorter than 32 characters;
in particular both cap boundaries are inclusive. -/
theorem check_wallet_send_policy_iff (cfg : AppConfig) (d : Doc)
    (today : String) (amount : ℚ) (dest : String)
    (h1 : d.dailySpendDate = today) (h2 : d.dailySwapDate = today) :
    (∃ v fsE, check_wallet_send cfg (.parsed d) today amount dest
        = .error (.policy v, fsE)) ↔
      (amount ≤ 0 ∨ cfg.policy.maxSolPerTx < amount ∨
       cfg.policy.dailySpendCapSol < d.dailySpendSol + amount ∨
       dest = "" ∨ dest.length < 32) := by
  unfold check_wallet_send
  rw [loadMem_today cfg.memory d today h1 h2]
  by_cases ha : amount ≤ 0
  · rw [if_pos ha]
    exact ⟨fun _ => Or.inl ha, fun _ => ⟨.amountNotPositive, .parsed d, rfl⟩⟩
  · rw [if_neg ha]
    by_cases hb : cfg.policy.maxSolPerTx < amount
    · rw [if_pos hb]
      exact ⟨fun _ => Or.inr (Or.inl hb),
             fun _ => ⟨.exceedsMaxSolPerTx, .parsed d, rfl⟩⟩
    · rw [if_neg hb]
      dsimp only
      by_cases hc : cfg.policy.dailySpendCapSol < d.dailySpendSol + amount
      · rw [if_pos hc]
        exact ⟨fun _ => Or.inr (Or.inr (Or.inl hc)),
               fun _ => ⟨.exceedsDailySpendCap, .parsed d, rfl⟩⟩
      · rw [if_neg hc]
        by_cases hdst : dest = "" ∨ dest.length < 32
        · rw [if_pos hdst]
          refine ⟨fun _ => ?_, fun _ => ⟨.badDestination, .parsed d, rfl⟩⟩
          rcases hdst with h | h
          · exact Or.inr (Or.inr (Or.inr (Or.inl h)))
          · exact Or.inr (Or.inr (Or.inr (Or.inr h)))
        · rw [if_neg hdst]
          constructor
          · rintro ⟨v, fsE, h⟩
            exact Except.noConfusion h
          · intro hdisj
            exfalso
            rcases hdisj with h | h | h | h | h
            exacts [ha h, hb h, hc h, hdst (Or.inl h), hdst (Or.inr h)]

/-- Witness for C7: a 0.05 SOL send to a 44-character destination with a
fresh document, evaluated through the theorem. -/
theorem check_wallet_send_policy_iff_witness :
    (∃ v fsE, check_wallet_send defaultAppConfig (.parsed c2State)
        "2026-01-01" (1/20) (String.mk (List.replicate 44 'A'))
        = .error (.policy v, fsE)) ↔
      ((1 : ℚ)/20 ≤ 0 ∨ defaultAppConfig.policy.maxSolPerTx < 1/20 ∨
       defaultAppConfig.policy.dailySpendCapSol < c2State.dailySpendSol + 1/20 ∨
       String.mk (List.replicate 44 'A') = "" ∨
       (String.mk (List.replicate 44 'A')).length < 32) :=
  check_wallet_send_policy_iff defaultAppConfig c2State "2026-01-01"
    (1/20) (String.mk (List.replicate 44 'A')) (by rfl) (by rfl)

-- ── C5 and C8 helper lemmas ─────────────────────────────────────────────────

/-- Reading back the key just stored by `setPos` with the default-lookup
used throughout the position tool. -/
theorem lookupPos_setPos_self (ps : List (String × Position)) (k : String)
    (v : Position) : lookupPos (setPos ps k v) k = v := by
  simp [lookupPos, lookup_setPos_self]

/-- Closed form of the position mutation on a partial sell: with a tracked
position `pos`, a negative delta smaller in magnitude than `pos.amount`
and a positive cost basis, the new entry holds `pos.amount + delta` and
cost basis scaled by `1 − (−delta) / pos.amount` (the code's divisor
`amount + |delta|` is the pre-transaction amount, since `amount` is
post-delta). -/
theorem updatePositionDoc_partial_sell (d : Doc) (today token : String)
    (delta usd : ℚ) (pos : Position)
    (hpos : List.lookup (pyToUpper token) d.positions = some pos)
    (hneg : delta < 0) (hlt : -delta < pos.amount) (hc : 0 < pos.costBasisUsd) :
    updatePositionDoc d token delta usd today
      = { d with positions :=
                   setPos d.positions (pyToUpper token)
                     ⟨pos.amount + delta,
                      pos.costBasisUsd * (1 - (-delta) / pos.amount), today⟩ } := by
  have ha : 0 < pos.amount + delta := by linarith
  have hamount : 0 < pos.amount := by
    have h0 : 0 < -delta := neg_pos.mpr hneg
    linarith
  unfold updatePositionDoc
  dsimp only
  rw [show lookupPos d.positions (pyToUpper token) = pos from by
    simp [lookupPos, hpos]]
  rw [if_neg (by rintro ⟨h, _⟩; linarith : ¬(delta > 0 ∧ usd > 0))]
  rw [if_pos (show delta < 0 ∧ pos.amount + delta > 0 ∧ pos.costBasisUsd > 0
    from ⟨hneg, ha, hc⟩)]
  rw [if_neg (not_le.mpr ha)]
  rw [abs_of_neg hneg]
  rw [show pos.amount + delta + -delta = pos.amount from by ring]
  rw [min_eq_right ((div_le_one hamount).mpr hlt.le)]

-- ── C5 ──────────────────────────────────────────────────────────────────────

/-- The sold fraction exactly as the claim words it: `|delta|` divided by
the pre-transaction amount plus `|delta|`, clamped to 1. -/
def claimed_sold_fraction (amountBefore delta : ℚ) : ℚ :=
  min 1 (|delta| / (amountBefore + |delta|))

/-- The post-sell cost basis the claim predicts. -/
def claimed_cost_after (costBefore amountBefore delta : ℚ) : ℚ :=
  costBefore * (1 - claimed_sold_fraction amountBefore delta)

/-- SOL position with amount 1 and cost basis 100, for the partial-sell
scenarios. -/
def c5SellPos : Position := { amount := 1, costBasisUsd := 100 }

/-- Document holding the `c5SellPos` SOL position with current dates. -/
def c5Doc : Doc := {
  dailySpendDate := "2026-01-01"
  dailySwapDate := "2026-01-01"
  positions := [("SOL", c5SellPos)] }

/-- C5 counterexample: selling 0.5 SOL out of 1 SOL with cost basis 100
leaves cost basis 50 in the code, while the claim formula
`|delta| / (amount_before + |delta|)` predicts 200/3 — the two disagree at
this concrete input. -/
theorem update_position_sold_fraction_counterexample :
    (lookupPos (updatePositionDoc c5Doc "SOL" (-(1/2)) 60 "2026-01-02").positions
        "SOL").costBasisUsd = 50 ∧
    claimed_cost_after 100 1 (-(1/2)) = 200/3 ∧
    ((50 : ℚ) ≠ 200/3) := by
  have hu : pyToUpper "SOL" = "SOL" := by rfl
  refine ⟨?_, ?_, by norm_num⟩
  · rw [updatePositionDoc_partial_sell c5Doc "2026-01-02" "SOL" (-(1/2)) 60
      c5SellPos (by rw [hu]; rfl) (by norm_num) (by norm_num [c5SellPos])
      (by norm_num [c5SellPos])]
    dsimp only
    rw [hu, lookupPos_setPos_self]
    norm_num [c5SellPos]
  · have habs : |(-(1/2) : ℚ)| = 1/2 := by
      rw [abs_neg]
      exact abs_of_nonneg (by norm_num)
    unfold claimed_cost_after claimed_sold_fraction
    rw [habs]
    rw [min_eq_right (by norm_num : ((1 : ℚ)/2) / (1 + 1/2) ≤ 1)]
    norm_num

/-- C5 (amended): on a partial sell (negative delta smaller in magnitude
than the held amount, with positive held amount and cost basis),
`update_position` multiplies the cost basis by `1 − |delta| / amount_before`
where `amount_before` is the pre-transaction amount — equivalently the
code's `min(1, |delta| / (amount + |delta|))` with `amount` the post-delta
amount — leaving the remainder proportional to the retained amount. -/
theorem update_position_partial_sell_proportional (mcfg : MemoryConfig)
    (d : Doc) (today token : String) (delta usd : ℚ) (pos : Position)
    (h1 : d.dailySpendDate = today) (h2 : d.dailySwapDate = today)
    (hpos : List.lookup (pyToUpper token) d.positions = some pos)
    (hneg : delta < 0) (hlt : -delta < pos.amount) (hc : 0 < pos.costBasisUsd) :
    ∃ d2, update_position mcfg (.parsed d) today token delta usd
        = .ok ((), .parsed d2) ∧
      (lookupPos d2.positions (pyToUpper token)).costBasisUsd
        = pos.costBasisUsd * (1 - (-delta) / pos.amount) ∧
      (lookupPos d2.positions (pyToUpper token)).amount = pos.amount + delta := by
  refine ⟨summarize_and_rotate mcfg (updatePositionDoc d token delta usd today),
          ?_, ?_, ?_⟩
  · unfold update_position
    rw [loadMem_today mcfg d today h1 h2]
    simp [saveDoc]
  · rw [sar_positions,
        updatePositionDoc_partial_sell d today token delta usd pos hpos hneg hlt hc]
    rw [lookupPos_setPos_self]
  · rw [sar_positions,
        updatePositionDoc_partial_sell d today token delta usd pos hpos hneg hlt hc]
    rw [lookupPos_setPos_self]

/-- Witness for C5: the amended statement evaluated on the
1-SOL-cost-100 position selling 0.5 SOL. -/
theorem update_position_partial_sell_proportional_witness :
    ∃ d2, update_position {} (.parsed c5Doc) "2026-01-01" "SOL" (-(1/2)) 60
        = .ok ((), .parsed d2) ∧
      (lookupPos d2.positions (pyToUpper "SOL")).costBasisUsd
        = c5SellPos.costBasisUsd * (1 - (-(-(1/2) : ℚ)) / c5SellPos.amount) ∧
      (lookupPos d2.positions (pyToUpper "SOL")).amount
        = c5SellPos.amount + -(1/2) :=
  update_position_partial_sell_proportional {} c5Doc "2026-01-01" "SOL"
    (-(1/2)) 60 c5SellPos (by rfl) (by rfl) (by rfl)
    (by norm_num) (by norm_num [c5SellPos]) (by norm_num [c5SellPos])

-- ── C8 ──────────────────────────────────────────────────────────────────────

/-- C8: after every `update_position` call the stored amount is
non-negative, and whenever the post-delta amount would be non-positive
both the amount and the cost basis are stored as exactly 0. -/
theorem update_position_amount_never_negative (mcfg : MemoryConfig)
    (d : Doc) (today token : String) (delta usd : ℚ)
    (h1 : d.dailySpendDate = today) (h2 : d.dailySwapDate = today) :
    ∃ d2, update_position mcfg (.parsed d) today token delta usd
        = .ok ((), .parsed d2) ∧
      0 ≤ (lookupPos d2.positions (pyToUpper token)).amount ∧
      ((lookupPos d.positions (pyToUpper token)).amount + delta ≤ 0 →
        (lookupPos d2.positions (pyToUpper token)).amount = 0 ∧
        (lookupPos d2.positions (pyToUpper token)).costBasisUsd = 0) := by
  refine ⟨summarize_and_rotate mcfg (updatePositionDoc d token delta usd today),
          ?_, ?_, ?_⟩
  · unfold update_position
    rw [loadMem_today mcfg d today h1 h2]
    simp [saveDoc]
  · rw [sar_positions]
    unfold updatePositionDoc
    dsimp only
    rw [lookupPos_setPos_self]
    by_cases hA : (lookupPos d.positions (pyToUpper token)).amount + delta ≤ 0
    · rw [if_pos hA]
    · rw [if_neg hA]
      dsimp only
      push_neg at hA
      linarith
  · intro hzero
    rw [sar_positions]
    unfold updatePositionDoc
    dsimp only
    rw [lookupPos_setPos_self]
    rw [if_pos hzero]
    exact ⟨rfl, rfl⟩

/-- Witness for C8: selling 2 SOL out of a held 1 clamps the position to
zero amount and zero cost basis. -/
theorem update_position_amount_never_negative_witness :
    ∃ d2, update_position {} (.parsed c5Doc) "2026-01-01" "SOL" (-2) 0
        = .ok ((), .parsed d2) ∧
      0 ≤ (lookupPos d2.positions (pyToUpper "SOL")).amount ∧
      ((lookupPos c5Doc.positions (pyToUpper "SOL")).amount + -2 ≤ 0 →
        (lookupPos d2.positions (pyToUpper "SOL")).amount = 0 ∧
        (lookupPos d2.positions (pyToUpper "SOL")).costBasisUsd = 0) :=
  update_position_amount_never_negative {} c5Doc "2026-01-01" "SOL" (-2) 0
    (by rfl) (by rfl)

-- ── C9 ──────────────────────────────────────────────────────────────────────

/-- The reflections step leaves `trades` unchanged. -/
theorem rr_trades (mcfg : MemoryConfig) (s : Doc) :
    (rotate_reflections mcfg s).trades = s.trades := by
  unfold rotate_reflections
  split <;> rfl

/-- The reflections step leaves `trade_summaries` unchanged. -/
theorem rr_tradeSummaries (mcfg : MemoryConfig) (s : Doc) :
    (rotate_reflections mcfg s).tradeSummaries = s.tradeSummaries := by
  unfold rotate_reflections
  split <;> rfl

/-- The reflections step leaves `swap_history` unchanged. -/
theorem rr_swapHistory (mcfg : MemoryConfig) (s : Doc) :
    (rotate_reflections mcfg s).swapHistory = s.swapHistory := by
  unfold rotate_reflections
  split <;> rfl

/-- With a positive cap, the reflections step leaves at most the cap. -/
theorem rr_reflections_le (mcfg : MemoryConfig) (s : Doc)
    (h : 0 < mcfg.maxReflections) :
    (rotate_reflections mcfg s).reflections.length ≤ mcfg.maxReflections := by
  unfold rotate_reflections
  by_cases hc : mcfg.maxReflections ≠ 0 ∧
      s.reflections.length > mcfg.maxReflections
  · rw [if_pos hc]
    simp only [List.length_drop]
    omega
  · rw [if_neg hc]
    push_neg at hc
    exact hc (Nat.pos_iff_ne_zero.mp h)

/-- The trades step leaves `reflections` unchanged. -/
theorem rt_reflections (mcfg : MemoryConfig) (s : Doc) :
    (rotate_trades mcfg s).reflections = s.reflections := by
  unfold rotate_trades
  split <;> rfl

/-- The trades step leaves `swap_history` unchanged. -/
theorem rt_swapHistory (mcfg : MemoryConfig) (s : Doc) :
    (rotate_trades mcfg s).swapHistory = s.swapHistory := by
  unfold rotate_trades
  split <;> rfl

/-- With a positive cap, the trades step leaves at most the cap. -/
theorem rt_trades_le (mcfg : MemoryConfig) (s : Doc)
    (h : 0 < mcfg.maxTrades) :
    (rotate_trades mcfg s).trades.length ≤ mcfg.maxTrades := by
  unfold rotate_trades
  by_cases hc : mcfg.maxTrades ≠ 0 ∧ s.trades.length > mcfg.maxTrades
  · rw [if_pos hc]
    simp only [List.length_drop]
    omega
  · rw [if_neg hc]
    push_neg at hc
    exact hc (Nat.pos_iff_ne_zero.mp h)

/-- With a non-zero cap, the trades step appends exactly one summary of
the pruned prefix on overflow and otherwise leaves the summaries alone. -/
theorem rt_tradeSummaries_eq (mcfg : MemoryConfig) (s : Doc)
    (h : mcfg.maxTrades ≠ 0) :
    (rotate_trades mcfg s).tradeSummaries
      = if mcfg.maxTrades < s.trades.length
        then s.tradeSummaries
          ++ [summarize_trades (s.trades.take (s.trades.length - mcfg.maxTrades))]
        else s.tradeSummaries := by
  unfold rotate_trades
  by_cases hc : mcfg.maxTrades < s.trades.length
  · rw [if_pos ⟨h, hc⟩, if_pos hc]
  · rw [if_neg (fun hx => hc hx.2), if_neg hc]

/-- The swap-history step leaves `reflections` unchanged. -/
theorem rs_reflections (mcfg : MemoryConfig) (s : Doc) :
    (rotate_swap_history mcfg s).reflections = s.reflections := by
  unfold rotate_swap_history
  split <;> rfl

/-- The swap-history step leaves `trades` unchanged. -/
theorem rs_trades (mcfg : MemoryConfig) (s : Doc) :
    (rotate_swap_history mcfg s).trades = s.trades := by
  unfold rotate_swap_history
  split <;> rfl

/-- The swap-history step leaves `trade_summaries` unchanged. -/
theorem rs_tradeSummaries (mcfg : MemoryConfig) (s : Doc) :
    (rotate_swap_history mcfg s).tradeSummaries = s.tradeSummaries := by
  unfold rotate_swap_history
  split <;> rfl

/-- With a positive cap, the swap-history step leaves at most the cap. -/
theorem rs_swapHistory_le (mcfg : MemoryConfig) (s : Doc)
    (h : 0 < mcfg.maxSwapHistory) :
    (rotate_swap_history mcfg s).swapHistory.length ≤ mcfg.maxSwapHistory := by
  unfold rotate_swap_history
  by_cases hc : mcfg.maxSwapHistory ≠ 0 ∧
      s.swapHistory.length > mcfg.maxSwapHistory
  · rw [if_pos hc]
    simp only [List.length_drop]
    omega
  · rw [if_neg hc]
    push_neg at hc
    exact hc (Nat.pos_iff_ne_zero.mp h)

/-- C9: after every `save`, each rotation-managed list holds at most its
configured (positive) cap of entries, and the trades list overflowing its
cap appends exactly one summary of the pruned entries to `trade_summaries`
(no overflow leaves the summaries unchanged). -/
theorem save_caps_lists_and_summarizes (mcfg : MemoryConfig) (d : Doc)
    (hr : 0 < mcfg.maxReflections) (ht : 0 < mcfg.maxTrades)
    (hs : 0 < mcfg.maxSwapHistory) :
    ((saveDoc mcfg d).1.reflections.length ≤ mcfg.maxReflections ∧
     (saveDoc mcfg d).1.trades.length ≤ mcfg.maxTrades ∧
     (saveDoc mcfg d).1.swapHistory.length ≤ mcfg.maxSwapHistory) ∧
    (mcfg.maxTrades < d.trades.length →
      (saveDoc mcfg d).1.tradeSummaries
        = d.tradeSummaries
          ++ [summarize_trades (d.trades.take (d.trades.length - mcfg.maxTrades))]) ∧
    (d.trades.length ≤ mcfg.maxTrades →
      (saveDoc mcfg d).1.tradeSummaries = d.tradeSummaries) := by
  have ht0 : mcfg.maxTrades ≠ 0 := Nat.pos_iff_ne_zero.mp ht
  simp only [saveDoc, summarize_and_rotate]
  refine ⟨⟨?_, ?_, ?_⟩, ?_, ?_⟩
  · rw [rs_reflections, rt_reflections]
    exact rr_reflections_le mcfg d hr
  · rw [rs_trades]
    exact rt_trades_le mcfg (rotate_reflections mcfg d) ht
  · exact rs_swapHistory_le mcfg _ hs
  · intro hov
    rw [rs_tradeSummaries, rt_tradeSummaries_eq mcfg _ ht0, rr_trades,
        rr_tradeSummaries, if_pos hov]
  · intro hun
    rw [rs_tradeSummaries, rt_tradeSummaries_eq mcfg _ ht0, rr_trades,
        rr_tradeSummaries, if_neg (not_lt.mpr hun)]

/-- Trades used by the C9 witness. -/
def c9Trade1 : Trade := { date := "2026-01-01", actionType := "swap", result := "ok" }

/-- Second trade used by the C9 witness. -/
def c9Trade2 : Trade := {
  date := "2026-01-02"
  actionType := "noop"
  result := "action blocked/failed: x" }

/-- Caps of one entry per list, to exercise rotation in the C9 witness. -/
def c9Cfg : MemoryConfig := { maxReflections := 1, maxTrades := 1, maxSwapHistory := 1 }

/-- Document with two trades, overflowing the cap of one. -/
def c9Doc : Doc := { trades := [c9Trade1, c9Trade2] }

/-- Witness for C9: caps of 1 with two trades — after save each list is
within its cap and exactly one summary of the pruned prefix is appended. -/
theorem save_caps_lists_and_summarizes_witness :
    ((saveDoc c9Cfg c9Doc).1.reflections.length ≤ c9Cfg.maxReflections ∧
     (saveDoc c9Cfg c9Doc).1.trades.length ≤ c9Cfg.maxTrades ∧
     (saveDoc c9Cfg c9Doc).1.swapHistory.length ≤ c9Cfg.maxSwapHistory) ∧
    (c9Cfg.maxTrades < c9Doc.trades.length →
      (saveDoc c9Cfg c9Doc).1.tradeSummaries
        = c9Doc.tradeSummaries
          ++ [summarize_trades
                (c9Doc.trades.take (c9Doc.trades.length - c9Cfg.maxTrades))]) ∧
    (c9Doc.trades.length ≤ c9Cfg.maxTrades →
      (saveDoc c9Cfg c9Doc).1.tradeSummaries = c9Doc.tradeSummaries) :=
  save_caps_lists_and_summarizes c9Cfg c9Doc (by decide) (by decide) (by decide)

-- ── C6 ──────────────────────────────────────────────────────────────────────

/-- C6: when neither the raw model response nor its brace-delimited
substring parses as a JSON plan, REASON yields a null plan (and, being a
total function, never raises); ACT on a null plan returns the state with
exactly the `action_result` "no valid plan produced" and the memory file
untouched — no policy check, no external call, no mutation, and no change
to `step` or `last_action_type`. -/
theorem unparsable_response_null_plan_no_side_effect
    (parse : String → Option Plan) (raw : String)
    (cfg : AppConfig) (env : Env) (dryRun : Bool) (today : String)
    (fs : FileState) (s : AgentState)
    (hbare : parse raw = none)
    (hsub : ∀ sub, extract_json_substring raw = some sub → parse sub = none) :
    reason_plan parse (.ok raw) = none ∧
    act_node cfg env dryRun today { s with plan := none } fs
      = ({ s with plan := none, actionResult := "no valid plan produced" }, fs) := by
  constructor
  · unfold reason_plan
    dsimp only
    rw [hbare]
    cases hx : extract_json_substring raw with
    | none => rfl
    | some sub => exact hsub sub hx
  · rfl

/-- Parse oracle for the C6 witness: nothing parses. -/
def c6Parse : String → Option Plan := fun _ => none

/-- Collaborator oracles for the agent-level witnesses. -/
def witnessEnv : Env := {
  balanceToken := fun _ => .ok 1,
  send := fun _ _ => .ok "sig",
  scrape := fun _ => .ok "page text",
  analyze := fun _ _ _ => .ok "ta summary",
  sandboxApply := fun _ _ _ => .ok "committed",
  swapExec := fun _ _ _ _ => .ok "swapsig",
  pyFloat := fun _ => .error "could not convert string to float" }

/-- Witness for C6: a prose-only model response with the always-failing
parse oracle, acted on from the initial state. -/
theorem unparsable_response_null_plan_no_side_effect_witness :
    reason_plan c6Parse (.ok "I cannot answer that") = none ∧
    act_node defaultAppConfig witnessEnv false "2026-01-01"
        { ({} : AgentState) with plan := none } (.parsed c2State)
      = ({ ({} : AgentState) with plan := none,
                                  actionResult := "no valid plan produced" },
         .parsed c2State) :=
  unparsable_response_null_plan_no_side_effect c6Parse "I cannot answer that"
    defaultAppConfig witnessEnv false "2026-01-01" (.parsed c2State) {}
    rfl (fun _ _ => rfl)

-- ── C10 ─────────────────────────────────────────────────────────────────────

/-- C10: under the shipped default configuration the allowed-domain set is
empty while `check_browser_url` still enforces membership, so it raises
`PolicyViolation` for every URL; consequently every scrape plan dispatched
by ACT (non-null, confidence at or above the threshold) ends in the
exception handler with an "action blocked/failed: ..." result and an
unchanged memory file, instead of a successful scrape. -/
theorem empty_allowlist_blocks_every_scrape
    (url : String) (env : Env) (dryRun : Bool) (today : String)
    (fs : FileState) (s : AgentState) (plan : Plan)
    (hplan : s.plan = some plan)
    (htype : plan.actionType = some "scrape")
    (hconf : defaultAppConfig.policy.confidenceThreshold
      ≤ plan.confidence.getD 0) :
    check_browser_url defaultAppConfig url = .error (.policy .domainNotAllowed) ∧
    ∃ msg, act_node defaultAppConfig env dryRun today s fs
      = ({ s with actionResult := "action blocked/failed: " ++ msg,
                  step := s.step + 1, lastActionType := some "scrape" }, fs) := by
  have hblock : ∀ u, check_browser_url defaultAppConfig u
      = .error (.policy .domainNotAllowed) := by
    intro u
    unfold check_browser_url
    rw [if_neg (by simp [defaultAppConfig, ALLOWED_SCRAPE_DOMAINS])]
  refine ⟨hblock url, ⟨errMessage (.policy .domainNotAllowed), ?_⟩⟩
  unfold act_node
  rw [hplan]
  simp only [htype, Option.getD_some]
  rw [if_neg (not_lt.mpr hconf)]
  rw [if_neg (by decide : ¬("scrape" : String) = "wallet_send")]
  simp only [if_true]
  rw [hblock (plan.target.getD "")]

/-- Scrape plan for the C10 witness. -/
def c10Plan : Plan := {
  actionType := some "scrape",
  target := some "https://coindesk.com",
  confidence := some 1 }

/-- Initial state carrying the scrape plan, for the C10 witness. -/
def c10State : AgentState := { observations := "obs", plan := some c10Plan }

/-- Witness for C10: the default configuration blocks the scrape of
a concrete news URL proposed at confidence 1. -/
theorem empty_allowlist_blocks_every_scrape_witness :
    check_browser_url defaultAppConfig "https://coindesk.com"
      = .error (.policy .domainNotAllowed) ∧
    ∃ msg, act_node defaultAppConfig witnessEnv false "2026-01-01" c10State
        (.parsed c2State)
      = ({ c10State with actionResult := "action blocked/failed: " ++ msg,
                         step := c10State.step + 1,
                         lastActionType := some "scrape" },
         .parsed c2State) :=
  empty_allowlist_blocks_every_scrape "https://coindesk.com" witnessEnv false
    "2026-01-01" (.parsed c2State) c10State c10Plan rfl rfl
    (by norm_num [c10Plan, defaultAppConfig])

-- ── C3 ──────────────────────────────────────────────────────────────────────

/-- C3: every swap plan that reaches dispatch (non-null, confidence at or
above threshold) with a positive amount and sufficient wallet balance ends
in the exception handler — the shipped call to `check_swap` omits the
required `network` argument, raising `TypeError` — so the action result
begins "action blocked/failed: ", the memory file is unchanged (no swap,
no position update, no swap-history entry, no daily-notional bump), and
only the step counter and last-action fields advance. -/
theorem swap_branch_always_blocked
    (cfg : AppConfig) (env : Env) (dryRun : Bool) (today : String)
    (d : Doc) (s : AgentState) (plan : Plan) (params : Params)
    (amount avail : ℚ)
    (hplan : s.plan = some plan)
    (htype : plan.actionType = some "swap")
    (hparams : plan.params = some params)
    (hamt : params.amountSol = some amount)
    (hpos : 0 < amount)
    (hconf : cfg.policy.confidenceThreshold ≤ plan.confidence.getD 0)
    (hbal : env.balanceToken (pyToUpper (params.fromToken.getD "SOL")) = .ok avail)
    (hav : amount ≤ avail)
    (h1 : d.dailySpendDate = today) (h2 : d.dailySwapDate = today) :
    ∃ msg, act_node cfg env dryRun today s (.parsed d)
      = ({ s with actionResult := "action blocked/failed: " ++ msg,
                  step := s.step + 1, lastActionType := some "swap" },
         .parsed d) := by
  unfold act_node
  rw [hplan]
  simp only [htype, hparams, hamt, Option.getD_some]
  rw [if_neg (not_lt.mpr hconf)]
  rw [if_neg (by decide : ¬("swap" : String) = "wallet_send")]
  rw [if_neg (by decide : ¬("swap" : String) = "scrape")]
  rw [if_neg (by decide : ¬("swap" : String) = "analyze")]
  rw [if_neg (by decide : ¬("swap" : String) = "review_history")]
  rw [if_neg (by decide : ¬("swap" : String) = "extend_code")]
  simp only [if_true]
  rw [if_neg (not_le.mpr hpos)]
  rw [hbal]
  dsimp only
  rw [if_neg (not_lt.mpr hav)]
  rw [loadMem_today cfg.memory d today h1 h2]
  dsimp only
  cases hp : solPriceFromLines env.pyFloat d.lastObservationsPrices with
  | error e => exact ⟨errMessage e, rfl⟩
  | ok v => exact ⟨errMessage .typeErrorMissingNetworkArg, rfl⟩

/-- Parameters of the witness swap plan: 0.1 SOL to USDC. -/
def c3Params : Params := { amountSol := some (1/10) }

/-- The witness swap plan at confidence 1. -/
def c3Plan : Plan := {
  actionType := some "swap",
  params := some c3Params,
  confidence := some 1 }

/-- Initial state carrying the swap plan. -/
def c3State : AgentState := { observations := "obs", plan := some c3Plan }

/-- Witness for C3: a 0.1-SOL swap plan at confidence 1 against a wallet
holding 1 SOL is nevertheless blocked. -/
theorem swap_branch_always_blocked_witness :
    ∃ msg, act_node defaultAppConfig witnessEnv false "2026-01-01" c3State
        (.parsed c2State)
      = ({ c3State with actionResult := "action blocked/failed: " ++ msg,
                        step := c3State.step + 1,
                        lastActionType := some "swap" },
         .parsed c2State) :=
  swap_branch_always_blocked defaultAppConfig witnessEnv false "2026-01-01"
    c2State c3State c3Plan c3Params (1/10) 1 rfl rfl rfl rfl
    (by norm_num) (by norm_num [c3Plan, defaultAppConfig]) rfl
    (by norm_num) (by rfl) (by rfl)

-- ── C1 ──────────────────────────────────────────────────────────────────────

/-- First model output of the C1 run: a free research action at
confidence 0.9. -/
def analyzePlanC1 : Plan := {
  actionType := some "analyze",
  target := some "SOLUSDT",
  confidence := some (9/10),
  reason := some "check the trend" }

/-- Model outputs for the C1 run: a valid analyze plan on the first REASON
entry, then output from which no plan can be parsed (null plan) forever. -/
def plansC1 : Nat → Option Plan := fun n => if n = 0 then some analyzePlanC1 else none

/-- Run state right after PERCEIVE: observations set, `step` 0, no plan,
no last action. -/
def c1StartState : AgentState := { observations := "obs" }

/-- Starting point of the REASON→ACT loop for the C1 run. -/
def c1Start : RunPoint := ⟨0, c1StartState, .parsed c2State⟩

/-- State after the first REASON→ACT iteration of the C1 run. -/
def c1AfterFirst : AgentState := {
  observations := "obs",
  plan := some analyzePlanC1,
  actionResult := "ta summary",
  step := 1,
  lastActionType := some "analyze" }

/-- The first iteration of the C1 run executes the analyze action and
routes back to REASON with `step` 1. -/
theorem c1_first :
    loopOnce defaultAppConfig witnessEnv false "2026-01-01" plansC1 c1Start
      = .looping ⟨1, c1AfterFirst, .parsed c2State⟩ := by
  have hup : pyToUpper "SOLUSDT" = "SOLUSDT" := by rfl
  have hlow : pyToLower "analyze" = "analyze" := by rfl
  have hn1 : ("analyze" : String) ≠ "wallet_send" := by decide
  have hn2 : ("analyze" : String) ≠ "scrape" := by decide
  norm_num [loopOnce, act_node, route_after_act, plansC1, analyzePlanC1,
    c1Start, c1StartState, c1AfterFirst, witnessEnv, defaultAppConfig,
    _MAX_REASON_ACT_STEPS, hup, hlow, hn1, hn2]

/-- From any point with a non-zero REASON index, `step` 1 and last action
"analyze", the next iteration gets a null plan, leaves `step` and
`last_action_type` untouched (the null-plan early exit of ACT does not
bump the counter) and routes back to REASON again. -/
theorem c1_stuck_step (i : Nat) (hi : i ≠ 0) (s : AgentState)
    (hstep : s.step = 1) (hlast : s.lastActionType = some "analyze")
    (fs : FileState) :
    loopOnce defaultAppConfig witnessEnv false "2026-01-01" plansC1 ⟨i, s, fs⟩
      = .looping ⟨i + 1, { s with plan := none,
                                  actionResult := "no valid plan produced" },
                  fs⟩ := by
  have hlow : pyToLower "analyze" = "analyze" := by rfl
  have hp : plansC1 i = none := by simp [plansC1, hi]
  simp [loopOnce, act_node, route_after_act, _MAX_REASON_ACT_STEPS, hp,
    hstep, hlast, hlow]

/-- Once stuck, the loop never reaches REFLECT, for any number of further
iterations. -/
theorem c1_stuck_run (n : Nat) : ∀ (i : Nat), i ≠ 0 → ∀ (s : AgentState),
    s.step = 1 → s.lastActionType = some "analyze" → ∀ (fs : FileState),
    (runLoop defaultAppConfig witnessEnv false "2026-01-01" plansC1 n
      ⟨i, s, fs⟩).isLooping = true := by
  induction n with
  | zero => intros; rfl
  | succ n ih =>
    intro i hi s hstep hlast fs
    unfold runLoop
    rw [c1_stuck_step i hi s hstep hlast fs]
    exact ih (i + 1) (Nat.succ_ne_zero i)
      { s with plan := none, actionResult := "no valid plan produced" }
      hstep hlast fs

/-- C1: with the model producing one free research action and then only
unparsable output, the REASON→ACT loop never routes to REFLECT — for every
iteration budget `n` the run is still looping — because the null-plan
early exit of ACT never increments `step`, so the routing can pick REASON
more than `_MAX_REASON_ACT_STEPS` (2) times and the run never reaches the
terminal DONE state. -/
theorem reason_act_loop_can_exceed_max_cycles :
    ∀ n : Nat,
      (runLoop defaultAppConfig witnessEnv false "2026-01-01" plansC1 n
        c1Start).isLooping = true := by
  intro n
  cases n with
  | zero => rfl
  | succ n =>
    unfold runLoop
    rw [c1_first]
    exact c1_stuck_run n 1 one_ne_zero c1AfterFirst rfl rfl (.parsed c2State)
